import Mathlib

/-!
Verification development for the Cloudflare Workflow dashboard worker
(`src/index.ts`).  The worker keeps workflow-instance and step state in a
D1 (SQLite) database, mirrors every mutation to live viewers over
server-sent events, and exposes HTTP handlers for creating, querying,
continuing and retrying workflow instances.

The embedding below models:
  * the two D1 tables (`workflow_instances`, `workflow_steps`) as lists of
    rows inside a `DB` structure; SQL `UPDATE ... WHERE` is a pointwise map
    over the rows, `SELECT ... WHERE ... ORDER BY step_index` is filter
    followed by a stable sort;
  * JSON values (`Json`) with integer numerics; the platform builtins
    `JSON.stringify` / `JSON.parse` are an inverse pair on JSON values, so
    the serialized `output` column is modelled as `Option Json` — `none` is
    SQL NULL, `some v` is the serialized text of `v` (note
    `JSON.stringify` of a truthy value is never the empty string, so the
    JavaScript truthiness test on the stored column text coincides with the
    NULL test);
  * the in-memory SSE registry `sseClients : Map<string, Set<Controller>>`
    as an association list of controller ids, with controller channel state
    (open/closed plus the delivered buffer) kept in `SSEState`;
  * the workflow driver's retrying write step (step index 4) as a trace of
    publish/work items produced by the external runner's retry loop.
-/

/-- JSON values as stored in step `output` payloads.  Numeric payloads are
modelled as integers (the concrete outputs the worker writes are objects,
strings, booleans and integral counters). -/
inductive Json where
  | null : Json
  | bool : Bool → Json
  | num : Int → Json
  | str : String → Json
  | arr : List Json → Json
  | obj : List (String × Json) → Json

/-- JavaScript truthiness of a JSON value: `null`, `false`, `0` and the
empty string are falsy; arrays and objects are always truthy. -/
def jsTruthy : Json → Bool
  | Json.null => false
  | Json.bool b => b
  | Json.num n => n != 0
  | Json.str s => s != ""
  | Json.arr _ => true
  | Json.obj _ => true

/-- Step status union from the `StepData` interface. -/
inductive StepStatus where
  | pending | running | waiting | completed | failed
deriving DecidableEq, Repr

/-- Instance status union from the `WorkflowInstance` interface. -/
inductive InstStatus where
  | queued | running | waiting | completed | failed
deriving DecidableEq, Repr

/-- One row of the `workflow_steps` table.  The `output` column holds the
`JSON.stringify` serialization of a JSON value (`none` = SQL NULL). -/
structure StepRow where
  workflow_id : String
  step_index : Nat
  name : String
  status : StepStatus
  output : Option Json
  error : Option String
  timestamp : Int
  duration : Option Int

/-- One row of the `workflow_instances` table. -/
structure InstanceRow where
  id : String
  status : InstStatus
  start_time : Int
  end_time : Option Int

/-- The D1 database: both tables, rows in insertion order. -/
structure DB where
  instances : List InstanceRow
  steps : List StepRow

/-- In-memory `StepData` as produced by the State Reader (`output = none`
models the JavaScript `undefined`). -/
structure StepData where
  name : String
  status : StepStatus
  output : Option Json
  error : Option String
  timestamp : Int
  duration : Option Int

/-- In-memory `WorkflowInstance` view. -/
structure WorkflowInstance where
  id : String
  status : InstStatus
  steps : List StepData
  startTime : Int
  endTime : Option Int

/-- SQL `ORDER BY step_index` (a stable sort on the step-index column). -/
def sortByIndex (l : List StepRow) : List StepRow :=
  List.insertionSort (fun a b => a.step_index ≤ b.step_index) l

/-- The step rows belonging to one instance, in `ORDER BY step_index`
order, as read by `SELECT * FROM workflow_steps WHERE workflow_id = ?`. -/
def instanceStepRows (id : String) (db : DB) : List StepRow :=
  sortByIndex (db.steps.filter (fun s => s.workflow_id == id))

/-- Row-to-view conversion done inside `getWorkflowInstance`'s `.map`:
`output: s.output ? JSON.parse(s.output) : undefined` (the stored text of a
truthy value is never empty, so the guard is exactly the NULL test). -/
def toStepData (s : StepRow) : StepData :=
  { name := s.name, status := s.status, output := s.output,
    error := s.error, timestamp := s.timestamp, duration := s.duration }

/-- `getWorkflowInstance(id, env)`: `SELECT` the instance row (`.first()`),
return `null` when absent, else join with the ordered step rows. -/
def getWorkflowInstance (id : String) (db : DB) : Option WorkflowInstance :=
  match db.instances.find? (fun w => w.id == id) with
  | none => none
  | some w =>
      some { id := w.id, status := w.status, startTime := w.start_time,
             endTime := w.end_time,
             steps := (instanceStepRows id db).map toStepData }

/-- The events broadcast to SSE subscribers (`data: <json>` payloads). -/
inductive Event where
  | stepUpdate (inst : WorkflowInstance)
  | statusUpdate (inst : WorkflowInstance)
  | waitingEv (inst : WorkflowInstance)
  | completedEv (inst : WorkflowInstance)
  | failedEv (inst : WorkflowInstance) (errMsg : String)
  | retryAttempt (stepIndex : Nat) (attempt : Nat)
  | initial (inst : WorkflowInstance)

/-- A broadcast request: target instance id plus payload. -/
def BroadcastCall := String × Event

/-- `Partial<StepData>` argument of `updateStep`: `none` means the field is
absent from the update object. -/
structure StepUpdates where
  status : Option StepStatus
  output : Option Json
  error : Option String
  timestamp : Option Int
  duration : Option Int

/-- Object spread `{ ...steps[stepIndex], ...updates }`: fields present in
`updates` override the existing view. -/
def mergeStep (old : StepData) (u : StepUpdates) : StepData :=
  { name := old.name,
    status := match u.status with | some s => s | none => old.status,
    output := match u.output with | some v => some v | none => old.output,
    error := match u.error with | some e => some e | none => old.error,
    timestamp := match u.timestamp with | some t => t | none => old.timestamp,
    duration := match u.duration with | some d => d | none => old.duration }

/-- Bind-site coercion `output ? JSON.stringify(output) : null`: a falsy
output value (undefined, null, false, 0, "") is stored as SQL NULL. -/
def storedOutput : Option Json → Option Json
  | some v => if jsTruthy v then some v else none
  | none => none

/-- Bind-site coercion `error || null`: the empty string is falsy. -/
def storedError : Option String → Option String
  | some e => if e == "" then none else some e
  | none => none

/-- Bind-site coercion `duration || null`: a zero duration is falsy. -/
def storedDuration : Option Int → Option Int
  | some d => if d == 0 then none else some d
  | none => none

/-- The SQL `UPDATE workflow_steps SET status, output, error, duration
WHERE workflow_id = ? AND step_index = ?` applied to one row (note the
`timestamp` column is not in the SET list and keeps its stored value). -/
def writeStepRow (m : StepData) (r : StepRow) : StepRow :=
  { r with status := m.status, output := storedOutput m.output,
           error := storedError m.error, duration := storedDuration m.duration }

/-- `updateStep(instanceId, stepIndex, updates, env)`: re-read the instance
view; when the instance exists and `steps[stepIndex]` is a (truthy) element,
merge the update into the in-memory view, persist the merged step's columns,
and broadcast a `stepUpdate` carrying the merged in-memory instance.
Otherwise the call silently does nothing. -/
def updateStep (instanceId : String) (stepIndex : Nat) (updates : StepUpdates)
    (db : DB) : DB × List BroadcastCall :=
  match getWorkflowInstance instanceId db with
  | none => (db, [])
  | some inst =>
      match inst.steps[stepIndex]? with
      | none => (db, [])
      | some old =>
          let merged := mergeStep old updates
          let db' : DB :=
            { db with steps := db.steps.map (fun r =>
                if r.workflow_id == instanceId && r.step_index == stepIndex then
                  writeStepRow merged r
                else r) }
          let instMem : WorkflowInstance :=
            { inst with steps := inst.steps.set stepIndex merged }
          (db', [(instanceId, Event.stepUpdate instMem)])

/-- Bind-site coercion `endTime || null` in `updateWorkflowStatus`. -/
def storedEndTime : Option Int → Option Int
  | some t => if t == 0 then none else some t
  | none => none

/-- `updateWorkflowStatus(instanceId, status, env, endTime?)`: SQL
`UPDATE workflow_instances SET status = ?, end_time = ? WHERE id = ?`
(unconditional on the current row state), then re-read and broadcast a
`statusUpdate` when the instance exists. -/
def updateWorkflowStatus (instanceId : String) (status : InstStatus)
    (endTime : Option Int) (db : DB) : DB × List BroadcastCall :=
  let db' : DB :=
    { db with instances := db.instances.map (fun r =>
        if r.id == instanceId then
          { r with status := status, end_time := storedEndTime endTime }
        else r) }
  (db',
   match getWorkflowInstance instanceId db' with
   | some inst => [(instanceId, Event.statusUpdate inst)]
   | none => [])

/-- One SSE `ReadableStreamDefaultController`: its identity, whether the
client side has disconnected (an `enqueue` on it throws), and the frames
delivered so far. -/
structure Controller where
  cid : Nat
  closed : Bool
  buffer : List Event

/-- The worker's in-process SSE state: the module-level
`sseClients : Map<string, Set<controller>>` (as an association list of
controller ids) together with the channel state of every controller. -/
structure SSEState where
  clients : List (String × List Nat)
  controllers : List Controller

/-- `controller.enqueue(...)`: throws when the client has disconnected. -/
def enqueueE (c : Controller) (ev : Event) : Except String Controller :=
  if c.closed then Except.error "client disconnected"
  else Except.ok { c with buffer := c.buffer ++ [ev] }

/-- The `try { controller.enqueue(...) } catch (e) { }` send site inside
`broadcastUpdate`: a throwing enqueue is swallowed, leaving the controller
as it was. -/
def trySend (c : Controller) (ev : Event) : Controller :=
  match enqueueE c ev with
  | Except.ok c2 => c2
  | Except.error _ => c

/-- `sseClients.get(instanceId)` (Map lookup). -/
def lookupClients (instanceId : String) (clients : List (String × List Nat)) :
    Option (List Nat) :=
  (clients.find? (fun p => p.1 == instanceId)).map (fun p => p.2)

/-- `broadcastUpdate(instanceId, data, env)`: look up the subscriber set
for the instance; if present, attempt the guarded enqueue on every
registered controller.  Every enqueue failure is caught in the loop body,
so the function itself is total (it never raises to the publisher). -/
def broadcastUpdate (instanceId : String) (ev : Event) (st : SSEState) :
    SSEState :=
  match lookupClients instanceId st.clients with
  | none => st
  | some subs =>
      { st with controllers := st.controllers.map (fun c =>
          if subs.contains c.cid then trySend c ev else c) }

/-- Registration in the stream handler's `start`: create the per-instance
set when absent, then `Set.add` the controller (no duplicate entries). -/
def addClient (instanceId : String) (cid : Nat)
    (clients : List (String × List Nat)) : List (String × List Nat) :=
  if clients.any (fun p => p.1 == instanceId) then
    clients.map (fun p =>
      if p.1 == instanceId then
        (p.1, if p.2.contains cid then p.2 else p.2 ++ [cid])
      else p)
  else clients ++ [(instanceId, [cid])]

/-- The `start(controller)` callback of the `/api/stream` ReadableStream:
register the controller under the instance id, then read the instance and,
when it exists, enqueue exactly one `initial` snapshot frame on this
controller.  When the instance does not exist nothing is sent (the
registration stays).  A rejection inside the `.then` callback is not
observed by the handler, so a failed initial enqueue leaves the controller
unchanged. -/
def streamStart (instanceId : String) (cid : Nat) (db : DB) (st : SSEState) :
    SSEState :=
  let st1 : SSEState := { st with clients := addClient instanceId cid st.clients }
  match getWorkflowInstance instanceId db with
  | some inst =>
      { st1 with controllers := st1.controllers.map (fun c =>
          if c.cid == cid then trySend c (Event.initial inst) else c) }
  | none => st1

/-- The `cancel(controller)` callback of the stream (disconnect cleanup):
`sseClients.get(instanceId)` and, when the set exists, `Set.delete` the
controller.  Deleting an absent element is a no-op. -/
def streamCancel (instanceId : String) (cid : Nat) (st : SSEState) : SSEState :=
  { st with clients := st.clients.map (fun p =>
      if p.1 == instanceId then (p.1, p.2.filter (fun x => x != cid)) else p) }

/-- Outcome of a `GET /api/stream` request. -/
inductive StreamResult where
  | badRequest
  | eventStream
deriving DecidableEq, Repr

/-- The `/api/stream` route handler: `url.searchParams.get('instanceId')`
is `null` when the parameter is absent, and the guard `if (!instanceId)`
also rejects the (falsy) empty string; otherwise the SSE response is
returned and the stream's `start` callback runs. -/
def apiStream (instanceIdParam : Option String) (cid : Nat) (db : DB)
    (st : SSEState) : StreamResult × SSEState :=
  match instanceIdParam with
  | none => (StreamResult.badRequest, st)
  | some instanceId =>
      if instanceId == "" then (StreamResult.badRequest, st)
      else (StreamResult.eventStream, streamStart instanceId cid db st)

/-- The step template inserted by `POST /api/workflow` and `/retry` in the
main worker (5 steps). -/
def stepTemplate : List String :=
  ["Fetch Files", "Wait for Approval", "Fetch API Data", "Sleep",
   "Write Operation"]

/-- The step template of the 6-step worker variant (AI analysis). -/
def stepTemplate6 : List String :=
  ["Fetch Document", "AI Analysis", "Wait for Approval", "Fetch API Data",
   "Sleep", "Persist Results"]

/-- The creation writes shared by `POST /api/workflow` and `/retry`:
`INSERT` one instance row (`status = 'queued'`, `start_time = Date.now()`),
then one step row per template entry with `step_index = i` and
`status = 'pending'`. -/
def createWorkflowRecords (newId : String) (now : Int) (tmpl : List String)
    (db : DB) : DB :=
  { instances := db.instances ++
      [{ id := newId, status := InstStatus.queued, start_time := now,
         end_time := none }],
    steps := db.steps ++ tmpl.enum.map (fun p =>
      { workflow_id := newId, step_index := p.1, name := p.2,
        status := StepStatus.pending, output := none, error := none,
        timestamp := now, duration := none }) }

/-- `POST /api/workflow`: create a platform instance (its fresh id is the
`newId` argument), insert the records, and respond with the re-read view. -/
def createWorkflowHandler (newId : String) (now : Int) (db : DB) :
    Option WorkflowInstance × DB :=
  let db2 := createWorkflowRecords newId now stepTemplate db
  (getWorkflowInstance newId db2, db2)

/-- Outcome of a `POST /api/workflow/:id/retry` request. -/
inductive RetryResult where
  | notFound
  | ok (view : Option WorkflowInstance)

/-- The `/retry` route handler: 404 when the original instance is absent,
else create a fresh sibling instance (the platform-generated id is the
`newId` argument) with the same step template and respond with its view. -/
def retryHandler (origId newId : String) (now : Int) (db : DB) :
    RetryResult × DB :=
  match getWorkflowInstance origId db with
  | none => (RetryResult.notFound, db)
  | some _ =>
      let db2 := createWorkflowRecords newId now stepTemplate db
      (RetryResult.ok (getWorkflowInstance newId db2), db2)

/-- Observable actions of the retrying write step: a broadcast publish, or
the execution of the unit of work's fallible body for one attempt. -/
inductive TraceItem where
  | publish (instanceId : String) (ev : Event)
  | work (attempt : Nat) (ok : Bool)

/-- The closure passed to `step.do("make a call to write ...")`: increment
the captured `retryCount`, broadcast a lightweight `retryAttempt` ping
(step index 4, the current counter) and only then run the fallible body
(`failsAt k` tells whether attempt `k` throws).  Returns the new counter,
the observable trace and whether the attempt succeeded. -/
def writeUnitOfWork (instanceId : String) (failsAt : Nat → Bool)
    (retryCount : Nat) : Nat × List TraceItem × Bool :=
  let c := retryCount + 1
  (c, [TraceItem.publish instanceId (Event.retryAttempt 4 c),
       TraceItem.work c (!failsAt c)], !failsAt c)

/-- The external step runner's retry loop (contract of `step.do` with a
retry limit): run the unit of work; stop on success, otherwise retry while
attempts remain.  `fuel` is the total number of attempts allowed
(`retries.limit + 1`). -/
def runWithRetries (instanceId : String) (failsAt : Nat → Bool) :
    Nat → Nat → Nat × List TraceItem × Bool
  | 0, count => (count, [], false)
  | fuel + 1, count =>
      let r := writeUnitOfWork instanceId failsAt count
      if r.2.2 then r
      else
        let rest := runWithRetries instanceId failsAt fuel r.1
        (rest.1, r.2.1 ++ rest.2.1, rest.2.2)

/-- The observable trace of one executed attempt `k`: its `retryAttempt`
publish followed by the body's execution. -/
def attemptTrace (instanceId : String) (failsAt : Nat → Bool) (k : Nat) :
    List TraceItem :=
  [TraceItem.publish instanceId (Event.retryAttempt 4 k),
   TraceItem.work k (!failsAt k)]

/-- The retrying write step of `MyWorkflow.run` uses `retries.limit = 5`,
so the runner makes at most 6 attempts, starting from `retryCount = 0`. -/
def writeStepRun (instanceId : String) (failsAt : Nat → Bool) :
    Nat × List TraceItem × Bool :=
  runWithRetries instanceId failsAt 6 0

/-! Helper lemmas about the reader's filter/sort pipeline. -/

/-- Filtering commutes with a pointwise row rewrite that preserves the
filter's key. -/
theorem filter_map_comm {α : Type} (g : α → α) (p : α → Bool)
    (hp : ∀ x, p (g x) = p x) (l : List α) :
    (l.map g).filter p = (l.filter p).map g := by
  induction l with
  | nil => rfl
  | cons a t ih =>
      simp only [List.map_cons, List.filter_cons, hp a]
      cases h : p a <;> simp [ih]

/-- Ordered insertion commutes with a pointwise row rewrite that preserves
the step index. -/
theorem orderedInsert_map_comm (g : StepRow → StepRow)
    (hg : ∀ r, (g r).step_index = r.step_index) (a : StepRow) :
    ∀ l : List StepRow,
      List.orderedInsert (fun x y => x.step_index ≤ y.step_index) (g a) (l.map g) =
        (List.orderedInsert (fun x y => x.step_index ≤ y.step_index) a l).map g := by
  intro l
  induction l with
  | nil => rfl
  | cons b t ih =>
      simp only [List.map_cons, List.orderedInsert, hg a, hg b]
      by_cases h : a.step_index ≤ b.step_index <;> simp [h, ih]

/-- Sorting by step index commutes with a pointwise row rewrite that
preserves the step index. -/
theorem sortByIndex_map_comm (g : StepRow → StepRow)
    (hg : ∀ r, (g r).step_index = r.step_index) :
    ∀ l : List StepRow, sortByIndex (l.map g) = (sortByIndex l).map g := by
  intro l
  induction l with
  | nil => rfl
  | cons a t ih =>
      simp only [sortByIndex, List.insertionSort, List.map_cons] at *
      rw [ih, orderedInsert_map_comm g hg]

/-- A step-row list whose indices already read `0, 1, ..., len-1` is
sorted, so the reader's `ORDER BY` returns it unchanged. -/
theorem sortByIndex_eq_self_of_range (l : List StepRow)
    (h : l.map (fun r => r.step_index) = List.range l.length) :
    sortByIndex l = l := by
  have hpw : List.Pairwise (fun a b : StepRow => a.step_index ≤ b.step_index) l := by
    have h1 : List.Pairwise (fun a b : Nat => a < b)
        (l.map (fun r => r.step_index)) := by
      rw [h]; exact List.pairwise_lt_range l.length
    have h2 := (List.pairwise_map).mp h1
    exact h2.imp (fun hab => Nat.le_of_lt hab)
  exact List.Sorted.insertionSort_eq hpw

/-! Claim theorems. -/

/-- C2 counterexample input: a `completed` instance with `endTime` set. -/
def dbTerminal : DB :=
  { instances := [{ id := "w1", status := InstStatus.completed,
                    start_time := 0, end_time := some 5 }],
    steps := [] }

/-- C2 counterexample: on a terminal instance (`completed`, `endTime = 5`),
a further `updateWorkflowStatus` call is neither rejected nor a no-op — it
overwrites the status to `running` and clears `endTime` to NULL. -/
theorem updateWorkflowStatus_mutates_terminal :
    (dbTerminal.instances.map (fun r => (r.status, r.end_time)) =
      [(InstStatus.completed, some 5)]) ∧
    ((updateWorkflowStatus "w1" InstStatus.running none dbTerminal).1.instances.map
        (fun r => (r.status, r.end_time)) = [(InstStatus.running, none)]) := by
  exact ⟨rfl, rfl⟩

/-- C2 (amended): `updateStep` never touches the instance table, so it can
change no instance's status or `endTime`; `updateWorkflowStatus`, however,
unconditionally overwrites the matched instance row's status and `end_time`
with the given values (coercing an absent or zero `endTime` to NULL), even
when the instance is already terminal. -/
theorem terminal_immutability_partial :
    (∀ (db : DB) (id : String) (idx : Nat) (upd : StepUpdates),
        ((updateStep id idx upd db).1).instances = db.instances) ∧
    (∀ (db : DB) (id : String) (s : InstStatus) (et : Option Int),
        ((updateWorkflowStatus id s et db).1).instances =
          db.instances.map (fun r =>
            if r.id == id then { r with status := s, end_time := storedEndTime et }
            else r)) := by
  constructor
  · intro db id idx upd
    unfold updateStep
    cases hg : getWorkflowInstance id db with
    | none => rfl
    | some inst =>
        cases hs : inst.steps[idx]? <;> simp [hs]
  · intro db id s et
    rfl

/-- C3 counterexample input: an empty database and a completion update. -/
def dbEmpty : DB := { instances := [], steps := [] }

/-- C3 counterexample update payload. -/
def updCompleted : StepUpdates :=
  { status := some StepStatus.completed, output := none, error := none,
    timestamp := none, duration := none }

/-- C3 counterexample: with no (instanceId, stepIndex) row at all,
`updateStep` does not fail with any error — it returns with the database
unchanged and no broadcast (a silent no-op). -/
theorem updateStep_missing_pair_silent :
    updateStep "w" 0 updCompleted dbEmpty = (dbEmpty, []) := rfl

/-- C3 (amended): when the (instanceId, stepIndex) pair does not exist —
the instance is absent, or the step index is out of range — `updateStep`
silently does nothing: no error is raised, the database is unchanged and
nothing is broadcast. -/
theorem updateStep_missing_pair_noop (db : DB) (id : String) (idx : Nat)
    (upd : StepUpdates)
    (h : ∀ inst, getWorkflowInstance id db = some inst → inst.steps.length ≤ idx) :
    updateStep id idx upd db = (db, []) := by
  unfold updateStep
  cases hg : getWorkflowInstance id db with
  | none => rfl
  | some inst =>
      have hlen := h inst hg
      simp [List.getElem?_eq_none hlen]

/-- C3 witness input: an instance with no step rows. -/
def dbNoSteps : DB :=
  { instances := [{ id := "w", status := InstStatus.running,
                    start_time := 0, end_time := none }],
    steps := [] }

/-- C3 witness: the amended no-op theorem applied at a concrete database
whose instance exists but has no step at index 3. -/
theorem updateStep_missing_pair_noop_witness :
    updateStep "w" 3 updCompleted dbNoSteps = (dbNoSteps, []) :=
  updateStep_missing_pair_noop dbNoSteps "w" 3 updCompleted (by
    intro inst h
    have hv : getWorkflowInstance "w" dbNoSteps =
        some { id := "w", status := InstStatus.running, startTime := 0,
               endTime := none, steps := [] } := rfl
    rw [hv] at h
    cases h
    simp)

/-- C9: unsubscription (the stream's `cancel` cleanup) is idempotent —
removing the same handle twice gives the same registry as removing it once,
and removing a handle that is not subscribed to the instance leaves the
registry exactly unchanged.  The operation is a total function: it never
raises. -/
theorem streamCancel_idempotent (id : String) (cid : Nat) (st : SSEState) :
    (streamCancel id cid (streamCancel id cid st) = streamCancel id cid st) ∧
    ((∀ p ∈ st.clients, p.1 = id → cid ∉ p.2) → streamCancel id cid st = st) := by
  constructor
  · unfold streamCancel
    simp only [List.map_map]
    congr 1
    apply List.map_congr_left
    intro p _
    simp only [Function.comp]
    by_cases h : p.1 = id
    · simp [h, List.filter_filter]
    · simp [h]
  · intro h
    unfold streamCancel
    have hmap : st.clients.map (fun p =>
        if p.1 == id then (p.1, p.2.filter (fun x => x != cid)) else p) = st.clients := by
      have hfun : ∀ p ∈ st.clients,
          (if p.1 == id then (p.1, p.2.filter (fun x => x != cid)) else p) = p := by
        intro p hp
        by_cases hpid : p.1 = id
        · have hnc := h p hp hpid
          have hne : ∀ x ∈ p.2, (x != cid) = true := by
            intro x hx
            simp only [bne_iff_ne, ne_eq]
            intro hq
            exact hnc (hq ▸ hx)
          simp only [hpid, beq_self_eq_true, if_true, List.filter_eq_self.mpr hne]
          rw [← hpid]
        · simp [hpid]
      exact (List.map_congr_left hfun).trans (List.map_id' st.clients)
    rw [hmap]

/-- C9 witness input: a registry holding one entry for another instance. -/
def stOther : SSEState := { clients := [("a", [2])], controllers := [] }

/-- C9 witness: idempotence and the unknown-handle no-op at a concrete
registry (handle 1 was never subscribed under instance `w`). -/
theorem streamCancel_idempotent_witness :
    streamCancel "w" 1 (streamCancel "w" 1 stOther) = streamCancel "w" 1 stOther ∧
    streamCancel "w" 1 stOther = stOther :=
  ⟨(streamCancel_idempotent "w" 1 stOther).1,
   (streamCancel_idempotent "w" 1 stOther).2 (by decide)⟩

/-- C4: a publish looks up the instance's subscribers and attempts the
guarded send on each; every failing channel write is caught inside the
loop, so `broadcastUpdate` is a total function (it cannot raise to the
publisher, however many writes fail), every open subscribed channel —
subscriber B — receives the event, every closed one — subscriber A — is
simply left unchanged, and the registry itself is untouched (publish does
not deregister failed subscribers). -/
theorem broadcastUpdate_isolation (wid : String) (ev : Event) (st : SSEState)
    (subs : List Nat) (hsubs : lookupClients wid st.clients = some subs) :
    (broadcastUpdate wid ev st).clients = st.clients ∧
    (broadcastUpdate wid ev st).controllers = st.controllers.map (fun c =>
      if subs.contains c.cid && !c.closed then
        { c with buffer := c.buffer ++ [ev] }
      else c) := by
  unfold broadcastUpdate
  rw [hsubs]
  refine ⟨rfl, ?_⟩
  apply List.map_congr_left
  intro c _
  by_cases hm : c.cid ∈ subs
  · cases hcl : c.closed
    · simp [hm, hcl, trySend, enqueueE]
    · simp [hm, hcl, trySend, enqueueE]
  · simp [hm, trySend]

/-- C4 witness inputs: subscriber A (disconnected) and B (live) on the
same instance. -/
def ctrlA : Controller := { cid := 1, closed := true, buffer := [] }

/-- C4 witness input: the live subscriber B. -/
def ctrlB : Controller := { cid := 2, closed := false, buffer := [] }

/-- C4 witness input: both subscribers registered for instance `w`. -/
def stAB : SSEState := { clients := [("w", [1, 2])], controllers := [ctrlA, ctrlB] }

/-- C4 witness: broadcasting to `w` with A's channel write failing leaves
A untouched, delivers the event to B, raises nothing, and keeps the
registry unchanged. -/
theorem broadcastUpdate_isolation_witness :
    (broadcastUpdate "w" (Event.retryAttempt 4 1) stAB).clients = stAB.clients ∧
    (broadcastUpdate "w" (Event.retryAttempt 4 1) stAB).controllers =
      [ctrlA, { ctrlB with buffer := [Event.retryAttempt 4 1] }] := by
  have h := broadcastUpdate_isolation "w" (Event.retryAttempt 4 1) stAB [1, 2] rfl
  refine ⟨h.1, ?_⟩
  rw [h.2]
  rfl

/-- Registration helper: after `addClient`, the instance's subscriber set
exists and contains the new controller id. -/
theorem lookupClients_addClient (wid : String) (cid : Nat)
    (cl : List (String × List Nat)) :
    ∃ subs, lookupClients wid (addClient wid cid cl) = some subs ∧ cid ∈ subs := by
  unfold addClient
  by_cases hany : cl.any (fun p => p.1 == wid)
  · rw [if_pos hany]
    induction cl with
    | nil => simp at hany
    | cons a t ih =>
        by_cases ha : a.1 == wid
        · refine ⟨if a.2.contains cid then a.2 else a.2 ++ [cid], ?_, ?_⟩
          · simp only [List.map_cons, ha, if_true, lookupClients]
            rw [List.find?_cons_of_pos]
            · rfl
            · simpa using ha
          · by_cases hc : cid ∈ a.2
            · simp [hc]
            · simp [hc]
        · have hany' : t.any (fun p => p.1 == wid) := by
            simpa [List.any_cons, ha] using hany
          obtain ⟨subs, h1, h2⟩ := ih hany'
          refine ⟨subs, ?_, h2⟩
          simp only [List.map_cons, ha, if_false, lookupClients]
          rw [List.find?_cons_of_neg]
          · exact h1
          · simpa using ha
  · rw [if_neg hany]
    refine ⟨[cid], ?_, by simp⟩
    unfold lookupClients
    rw [List.find?_append]
    have hfalse : cl.any (fun p => p.1 == wid) = false :=
      Bool.eq_false_iff.mpr hany
    have hnone : cl.find? (fun p => p.1 == wid) = none := by
      rw [List.find?_eq_none]
      intro p hp
      exact (List.any_eq_false.mp hfalse) p hp
    rw [hnone]
    simp [List.find?]

/-- C10: subscribing for an instance id that does not exist still succeeds
with an event-stream response (no 404), still registers the subscriber in
the per-instance registry (so later broadcasts for that id will reach it),
but sends it no `initial` event — no controller's channel receives
anything. -/
theorem apiStream_unknown_instance (wid : String) (cid : Nat) (db : DB)
    (st : SSEState) (hnone : getWorkflowInstance wid db = none) (hid : wid ≠ "") :
    (apiStream (some wid) cid db st).1 = StreamResult.eventStream ∧
    (apiStream (some wid) cid db st).2.controllers = st.controllers ∧
    ∃ subs, lookupClients wid (apiStream (some wid) cid db st).2.clients = some subs ∧
      cid ∈ subs := by
  have hbeq : (wid == "") = false := by
    simp [hid]
  simp only [apiStream, hbeq, Bool.false_eq_true, if_false]
  refine ⟨trivial, ?_, ?_⟩
  · unfold streamStart
    rw [hnone]
  · unfold streamStart
    rw [hnone]
    exact lookupClients_addClient wid cid st.clients

/-- C10 witness input: an empty SSE registry. -/
def stEmpty : SSEState := { clients := [], controllers := [] }

/-- C10 witness: subscribing to the nonexistent instance `ghost` on an
empty database yields the event-stream response, registers handle 3, and
delivers nothing to any controller. -/
theorem apiStream_unknown_instance_witness :
    (apiStream (some "ghost") 3 dbEmpty stEmpty).1 = StreamResult.eventStream ∧
    (apiStream (some "ghost") 3 dbEmpty stEmpty).2.controllers = [] ∧
    ∃ subs, lookupClients "ghost" (apiStream (some "ghost") 3 dbEmpty stEmpty).2.clients =
      some subs ∧ 3 ∈ subs := by
  have h := apiStream_unknown_instance "ghost" 3 dbEmpty stEmpty rfl (by decide)
  exact ⟨h.1, h.2.1, h.2.2⟩

/-- C7: a request without an `instanceId` query parameter is answered with
HTTP 400; connecting for an existing instance succeeds with an
event-stream response and, immediately on subscribe — before any further
mutation — the connecting controller receives exactly one `initial` event
carrying the current snapshot (its buffer is extended by exactly that one
event; all other controllers are untouched), and the handle is registered
for the instance. -/
theorem apiStream_initial_snapshot (wid : String) (cid : Nat) (db : DB)
    (st : SSEState) (inst : WorkflowInstance)
    (hinst : getWorkflowInstance wid db = some inst) (hid : wid ≠ "")
    (hopen : ∀ c ∈ st.controllers, c.cid = cid → c.closed = false) :
    (apiStream none cid db st = (StreamResult.badRequest, st)) ∧
    (apiStream (some wid) cid db st).1 = StreamResult.eventStream ∧
    (apiStream (some wid) cid db st).2.controllers = st.controllers.map (fun c =>
      if c.cid == cid then { c with buffer := c.buffer ++ [Event.initial inst] }
      else c) ∧
    ∃ subs, lookupClients wid (apiStream (some wid) cid db st).2.clients =
      some subs ∧ cid ∈ subs := by
  have hbeq : (wid == "") = false := by simp [hid]
  refine ⟨rfl, ?_⟩
  simp only [apiStream, hbeq, Bool.false_eq_true, if_false]
  refine ⟨trivial, ?_, ?_⟩
  · unfold streamStart
    rw [hinst]
    apply List.map_congr_left
    intro c hc
    by_cases hcid : c.cid = cid
    · have hcl := hopen c hc hcid
      simp [hcid, trySend, enqueueE, hcl]
    · simp [hcid]
  · unfold streamStart
    rw [hinst]
    exact lookupClients_addClient wid cid st.clients

/-- C7 witness inputs: a queued instance with no steps. -/
def dbQueued : DB :=
  { instances := [{ id := "w", status := InstStatus.queued, start_time := 0,
                    end_time := none }],
    steps := [] }

/-- C7 witness input: the reader's view of `dbQueued`. -/
def instQueued : WorkflowInstance :=
  { id := "w", status := InstStatus.queued, steps := [], startTime := 0,
    endTime := none }

/-- C7 witness input: one freshly connected, still-open controller. -/
def stFresh : SSEState :=
  { clients := [], controllers := [{ cid := 7, closed := false, buffer := [] }] }

/-- C7 witness: connecting handle 7 for instance `w` registers it and
delivers exactly one `initial` snapshot to its channel; a request without
the parameter gets 400. -/
theorem apiStream_initial_snapshot_witness :
    (apiStream none 7 dbQueued stFresh = (StreamResult.badRequest, stFresh)) ∧
    (apiStream (some "w") 7 dbQueued stFresh).1 = StreamResult.eventStream ∧
    (apiStream (some "w") 7 dbQueued stFresh).2.controllers =
      [{ cid := 7, closed := false, buffer := [Event.initial instQueued] }] ∧
    ∃ subs, lookupClients "w" (apiStream (some "w") 7 dbQueued stFresh).2.clients =
      some subs ∧ 7 ∈ subs := by
  have h := apiStream_initial_snapshot "w" 7 dbQueued stFresh instQueued rfl
    (by decide) (by decide)
  refine ⟨h.1, h.2.1, ?_, h.2.2.2⟩
  rw [h.2.2.1]
  rfl

/-- Trace characterization of the external runner's retry loop: starting
from counter `count` with `fuel` attempts allowed, some number `m ≤ fuel`
of attempts execute (at least one when fuel allows), the counter advances
by `m`, and the observable trace is exactly the concatenation of the
per-attempt traces — each attempt's `retryAttempt` publish immediately
before its body, with 1-based counters `count+1, ..., count+m`. -/
theorem runWithRetries_trace (wid : String) (failsAt : Nat → Bool) :
    ∀ fuel count : Nat,
      ∃ m, m ≤ fuel ∧
        (runWithRetries wid failsAt fuel count).1 = count + m ∧
        (runWithRetries wid failsAt fuel count).2.1 =
          (List.range m).flatMap (fun k => attemptTrace wid failsAt (count + k + 1)) ∧
        (1 ≤ fuel → 1 ≤ m) := by
  intro fuel
  induction fuel with
  | zero =>
      intro count
      exact ⟨0, Nat.le_refl 0, by simp [runWithRetries], by simp [runWithRetries], by omega⟩
  | succ n ih =>
      intro count
      by_cases hok : failsAt (count + 1) = false
      · refine ⟨1, by omega, ?_, ?_, by omega⟩
        · simp [runWithRetries, writeUnitOfWork, hok]
        · rw [show List.range 1 = [0] from rfl]
          simp [runWithRetries, writeUnitOfWork, hok, attemptTrace,
            List.flatMap_cons, List.flatMap_nil]
      · have hfail : failsAt (count + 1) = true := by
          cases h : failsAt (count + 1)
          · exact absurd h hok
          · rfl
        obtain ⟨m', hle, h1, h2, _⟩ := ih (count + 1)
        refine ⟨m' + 1, by omega, ?_, ?_, by omega⟩
        · simp only [runWithRetries, writeUnitOfWork, hfail, Bool.not_true,
            Bool.false_eq_true, if_false]
          rw [h1]
          omega
        · simp only [runWithRetries, writeUnitOfWork, hfail, Bool.not_true,
            Bool.false_eq_true, if_false]
          rw [h2]
          rw [List.range_succ_eq_map, List.flatMap_cons, List.flatMap_map]
          have hsh : (fun k => attemptTrace wid failsAt (count + 1 + k + 1)) =
              (fun k => attemptTrace wid failsAt (count + Nat.succ k + 1)) := by
            funext k
            congr 1
            omega
          rw [hsh]
          congr 1
          simp [attemptTrace, writeUnitOfWork, hfail]

/-- C8: in the retrying write step (step index 4, retry limit 5), some
number `n` of attempts execute with `1 ≤ n ≤ 6`; the observable trace is
exactly, for each attempt `k = 1, ..., n` in order, a published
`retryAttempt` event carrying only the step index 4 and the 1-based
attempt counter `k` (no instance payload), immediately followed by that
attempt's execution of the unit of work — so the ping precedes every
attempt, the first included. -/
theorem writeStep_retryAttempt_trace (wid : String) (failsAt : Nat → Bool) :
    ∃ n, 1 ≤ n ∧ n ≤ 6 ∧
      (writeStepRun wid failsAt).1 = n ∧
      (writeStepRun wid failsAt).2.1 =
        (List.range n).flatMap (fun k => attemptTrace wid failsAt (k + 1)) := by
  obtain ⟨m, hle, h1, h2, hmin⟩ := runWithRetries_trace wid failsAt 6 0
  refine ⟨m, hmin (by omega), hle, by simpa using h1, ?_⟩
  simpa using h2

/-- The step rows inserted for a freshly created instance id: the creation
loop's rows, in insertion order, with `step_index = 0, 1, ...`. -/
def freshStepRows (newId : String) (now : Int) (tmpl : List String) :
    List StepRow :=
  tmpl.enum.map (fun p =>
    { workflow_id := newId, step_index := p.1, name := p.2,
      status := StepStatus.pending, output := none, error := none,
      timestamp := now, duration := none })

/-- The inserted rows' step indices are the positions of the template. -/
theorem freshStepRows_indices (newId : String) (now : Int) (tmpl : List String) :
    (freshStepRows newId now tmpl).map (fun r => r.step_index) =
      List.range tmpl.length := by
  unfold freshStepRows
  rw [List.map_map]
  rw [show ((fun r : StepRow => r.step_index) ∘ fun p : Nat × String =>
      ({ workflow_id := newId, step_index := p.1, name := p.2,
         status := StepStatus.pending, output := none, error := none,
         timestamp := now, duration := none } : StepRow)) =
    fun p : Nat × String => p.1 from rfl]
  simp

/-- After creation under a fresh id, the reader's ordered row selection for
that id is exactly the inserted template rows, in template order. -/
theorem instanceStepRows_create (newId : String) (now : Int)
    (tmpl : List String) (db : DB)
    (hfresh : ∀ s ∈ db.steps, s.workflow_id ≠ newId) :
    instanceStepRows newId (createWorkflowRecords newId now tmpl db) =
      freshStepRows newId now tmpl := by
  have hsteps : (createWorkflowRecords newId now tmpl db).steps =
      db.steps ++ freshStepRows newId now tmpl := rfl
  unfold instanceStepRows
  rw [hsteps, List.filter_append]
  have hold : db.steps.filter (fun s => s.workflow_id == newId) = [] := by
    rw [List.filter_eq_nil_iff]
    intro s hs
    simpa using hfresh s hs
  have hnew : (freshStepRows newId now tmpl).filter
      (fun s => s.workflow_id == newId) = freshStepRows newId now tmpl := by
    rw [List.filter_eq_self]
    intro s hs
    unfold freshStepRows at hs
    obtain ⟨p, _, hp⟩ := List.mem_map.mp hs
    rw [← hp]
    simp
  rw [hold, hnew, List.nil_append]
  apply sortByIndex_eq_self_of_range
  rw [freshStepRows_indices]
  congr 1
  simp [freshStepRows]

/-- C5: creating an instance (the shared creation writes of
`POST /api/workflow` and `/retry`) under a fresh platform id yields a step
list whose indices, as selected and ordered by the State Reader, are
exactly the contiguous ascending range `0..N-1` (N the template length —
5 for the main worker's template, 6 for the variant's), and
`getWorkflowInstance` returns exactly that ordered list as its view. -/
theorem createWorkflow_contiguous_indices (newId : String) (now : Int)
    (tmpl : List String) (db : DB)
    (hfresh : ∀ s ∈ db.steps, s.workflow_id ≠ newId) :
    (instanceStepRows newId (createWorkflowRecords newId now tmpl db)).map
        (fun r => r.step_index) = List.range tmpl.length ∧
    (getWorkflowInstance newId (createWorkflowRecords newId now tmpl db)).map
        (fun i => i.steps) =
      some ((instanceStepRows newId (createWorkflowRecords newId now tmpl db)).map
        toStepData) := by
  constructor
  · rw [instanceStepRows_create newId now tmpl db hfresh]
    exact freshStepRows_indices newId now tmpl
  · have hinst : (createWorkflowRecords newId now tmpl db).instances =
        db.instances ++ [{ id := newId, status := InstStatus.queued,
                           start_time := now, end_time := none }] := rfl
    unfold getWorkflowInstance
    rw [hinst, List.find?_append]
    cases hf : db.instances.find? (fun w => w.id == newId) with
    | none => simp [List.find?]
    | some w => simp

/-- C5 witness: creating on an empty database with the main worker's
5-step template yields indices `0..4`, and with the variant's 6-step
template yields `0..5`. -/
theorem createWorkflow_contiguous_indices_witness :
    (instanceStepRows "new" (createWorkflowRecords "new" 0 stepTemplate dbEmpty)).map
        (fun r => r.step_index) = List.range 5 ∧
    (instanceStepRows "new6" (createWorkflowRecords "new6" 0 stepTemplate6 dbEmpty)).map
        (fun r => r.step_index) = List.range 6 :=
  ⟨(createWorkflow_contiguous_indices "new" 0 stepTemplate dbEmpty
      (by intro s hs; simp [dbEmpty] at hs)).1,
   (createWorkflow_contiguous_indices "new6" 0 stepTemplate6 dbEmpty
      (by intro s hs; simp [dbEmpty] at hs)).1⟩

/-- C6: on `POST /api/workflow/:id/retry`, an absent original instance
yields 404 with the database untouched; otherwise a fresh sibling instance
is created — a new id distinct from the original's, status `queued`, no
`endTime`, and all 5 step rows reset to `pending` — its initial view is
returned, and the original instance still reads back exactly as before. -/
theorem retryHandler_spec (origId newId : String) (now : Int) (db : DB) :
    (getWorkflowInstance origId db = none →
      retryHandler origId newId now db = (RetryResult.notFound, db)) ∧
    (∀ inst0, getWorkflowInstance origId db = some inst0 →
      (∀ r ∈ db.instances, r.id ≠ newId) →
      (∀ s ∈ db.steps, s.workflow_id ≠ newId) →
      ∃ view,
        (retryHandler origId newId now db).1 = RetryResult.ok (some view) ∧
        view.id = newId ∧ newId ≠ origId ∧
        view.status = InstStatus.queued ∧ view.endTime = none ∧
        view.steps.map (fun s => s.status) =
          List.replicate 5 StepStatus.pending ∧
        getWorkflowInstance origId (retryHandler origId newId now db).2 =
          some inst0) := by
  constructor
  · intro h
    unfold retryHandler
    rw [h]
  · intro inst0 hinst hfreshI hfreshS
    -- the instance row backing the original view
    obtain ⟨w0, hw0⟩ : ∃ w0, db.instances.find? (fun w => w.id == origId) = some w0 := by
      unfold getWorkflowInstance at hinst
      cases hf : db.instances.find? (fun w => w.id == origId) with
      | none => rw [hf] at hinst; cases hinst
      | some w => exact ⟨w, rfl⟩
    have hw0mem : w0 ∈ db.instances := List.mem_of_find?_eq_some hw0
    have hw0id : w0.id = origId := by
      have := List.find?_some hw0
      simpa using this
    have hne : newId ≠ origId := fun h => (hfreshI w0 hw0mem) (h ▸ hw0id)
    set db2 := createWorkflowRecords newId now stepTemplate db with hdb2
    have hretry : retryHandler origId newId now db =
        (RetryResult.ok (getWorkflowInstance newId db2), db2) := by
      unfold retryHandler
      rw [hinst]
    -- reading the new instance back
    have hfindNew : db2.instances.find? (fun w => w.id == newId) =
        some { id := newId, status := InstStatus.queued, start_time := now,
               end_time := none } := by
      have : db2.instances = db.instances ++
          [{ id := newId, status := InstStatus.queued, start_time := now,
             end_time := none }] := rfl
      rw [this, List.find?_append]
      have hnone : db.instances.find? (fun w => w.id == newId) = none := by
        rw [List.find?_eq_none]
        intro r hr
        simpa using hfreshI r hr
      rw [hnone]
      simp [List.find?]
    have hviewNew : getWorkflowInstance newId db2 =
        some { id := newId, status := InstStatus.queued, startTime := now,
               endTime := none,
               steps := (freshStepRows newId now stepTemplate).map toStepData } := by
      unfold getWorkflowInstance
      rw [hfindNew, instanceStepRows_create newId now stepTemplate db hfreshS]
    -- the original instance reads back unchanged
    have hrows2 : instanceStepRows origId db2 = instanceStepRows origId db := by
      unfold instanceStepRows
      have hsteps2 : db2.steps = db.steps ++ freshStepRows newId now stepTemplate :=
        rfl
      rw [hsteps2, List.filter_append]
      have hnew0 : (freshStepRows newId now stepTemplate).filter
          (fun s => s.workflow_id == origId) = [] := by
        rw [List.filter_eq_nil_iff]
        intro s hs
        unfold freshStepRows at hs
        obtain ⟨p, _, hp⟩ := List.mem_map.mp hs
        rw [← hp]
        simpa using hne
      rw [hnew0, List.append_nil]
    have horig2 : getWorkflowInstance origId db2 = some inst0 := by
      rw [← hinst]
      unfold getWorkflowInstance
      have hfind2 : db2.instances.find? (fun w => w.id == origId) = some w0 := by
        have : db2.instances = db.instances ++
            [{ id := newId, status := InstStatus.queued, start_time := now,
               end_time := none }] := rfl
        rw [this, List.find?_append, hw0]
        rfl
      rw [hfind2, hw0, hrows2]
    refine ⟨_, by rw [hretry, hviewNew], rfl, hne, rfl, rfl, ?_, by rw [hretry]; exact horig2⟩
    -- all created steps are pending
    show ((freshStepRows newId now stepTemplate).map toStepData).map
        (fun s => s.status) = List.replicate 5 StepStatus.pending
    unfold freshStepRows
    rw [List.map_map, List.map_map]
    rw [show ((((fun s : StepData => s.status) ∘ toStepData) ∘
        fun p : Nat × String =>
          ({ workflow_id := newId, step_index := p.1, name := p.2,
             status := StepStatus.pending, output := none, error := none,
             timestamp := now, duration := none } : StepRow))) =
      (fun _ : Nat × String => StepStatus.pending) from rfl]
    rw [List.map_const']
    rfl

/-- C6 witness input: a failed instance with one failed step row. -/
def dbFailed : DB :=
  { instances := [{ id := "orig", status := InstStatus.failed,
                    start_time := 0, end_time := some 9 }],
    steps := [{ workflow_id := "orig", step_index := 0, name := "Fetch Files",
                status := StepStatus.failed, output := none,
                error := some "boom", timestamp := 0, duration := some 1 }] }

/-- C6 witness input: the reader's view of the failed instance. -/
def instFailed : WorkflowInstance :=
  { id := "orig", status := InstStatus.failed, startTime := 0,
    endTime := some 9,
    steps := [{ name := "Fetch Files", status := StepStatus.failed,
                output := none, error := some "boom", timestamp := 0,
                duration := some 1 }] }

/-- C6 witness: retrying an unknown id yields 404 and no change; retrying
the failed instance `orig` creates sibling `new` (queued, no endTime, all
5 steps pending) and leaves `orig` reading back unchanged. -/
theorem retryHandler_spec_witness :
    (retryHandler "ghost" "n0" 0 dbFailed = (RetryResult.notFound, dbFailed)) ∧
    ∃ view,
      (retryHandler "orig" "new" 7 dbFailed).1 = RetryResult.ok (some view) ∧
      view.id = "new" ∧ ("new" : String) ≠ "orig" ∧
      view.status = InstStatus.queued ∧ view.endTime = none ∧
      view.steps.map (fun s => s.status) =
        List.replicate 5 StepStatus.pending ∧
      getWorkflowInstance "orig" (retryHandler "orig" "new" 7 dbFailed).2 =
        some instFailed :=
  ⟨(retryHandler_spec "ghost" "n0" 0 dbFailed).1 rfl,
   (retryHandler_spec "orig" "new" 7 dbFailed).2 instFailed rfl
     (by decide) (by decide)⟩

/-- C1 (amended): writing a truthy structured `output` value through
`updateStep` and reading the step back through `getWorkflowInstance`
returns an output deeply equal to the value written.  (Falsy values —
null, false, 0, the empty string — do not round-trip: the bind-site
truthiness coercion stores them as SQL NULL, see the counterexample.)
The hypothesis `hWF` is the step-contiguity invariant established at
creation (claim C5): the instance's stored step indices are exactly
`0..N-1`. -/
theorem updateStep_output_roundtrip (db : DB) (wid : String) (idx : Nat)
    (upd : StepUpdates) (v : Json)
    (hout : upd.output = some v) (htr : jsTruthy v = true)
    (hWF : (instanceStepRows wid db).map (fun r => r.step_index) =
      List.range (instanceStepRows wid db).length)
    (inst : WorkflowInstance) (hinst : getWorkflowInstance wid db = some inst)
    (hidx : idx < inst.steps.length) :
    ∃ inst', getWorkflowInstance wid (updateStep wid idx upd db).1 = some inst' ∧
      (inst'.steps[idx]?).map (fun sd => sd.output) = some (some v) := by
  -- unpack the original read
  obtain ⟨w, hfind⟩ : ∃ w, db.instances.find? (fun x => x.id == wid) = some w := by
    unfold getWorkflowInstance at hinst
    cases hf : db.instances.find? (fun x => x.id == wid) with
    | none => rw [hf] at hinst; cases hinst
    | some w => exact ⟨w, rfl⟩
  have hinstEq : inst = { id := w.id, status := w.status,
                          startTime := w.start_time, endTime := w.end_time,
                          steps := (instanceStepRows wid db).map toStepData } := by
    unfold getWorkflowInstance at hinst
    rw [hfind] at hinst
    exact (Option.some.inj hinst).symm
  have hstepsEq : inst.steps = (instanceStepRows wid db).map toStepData := by
    rw [hinstEq]
  -- the existing element at idx
  have hold : inst.steps[idx]? = some inst.steps[idx] := List.getElem?_eq_getElem hidx
  set old := inst.steps[idx] with holddef
  set merged := mergeStep old upd with hmerged
  set g : StepRow → StepRow := fun r =>
    if r.workflow_id == wid && r.step_index == idx then writeStepRow merged r
    else r with hg
  have hupd : (updateStep wid idx upd db).1 = { db with steps := db.steps.map g } := by
    unfold updateStep
    simp only [hinst, hold]
  -- g preserves the filter and sort keys
  have hgw : ∀ r, (g r).workflow_id = r.workflow_id := by
    intro r
    rw [hg]
    by_cases hc : (r.workflow_id == wid && r.step_index == idx) = true
    · simp [hc, writeStepRow]
    · simp [hc]
  have hgi : ∀ r, (g r).step_index = r.step_index := by
    intro r
    rw [hg]
    by_cases hc : (r.workflow_id == wid && r.step_index == idx) = true
    · simp [hc, writeStepRow]
    · simp [hc]
  -- the reader's row selection after the update
  have hrows' : instanceStepRows wid { db with steps := db.steps.map g } =
      (instanceStepRows wid db).map g := by
    unfold instanceStepRows
    have hfm : (db.steps.map g).filter (fun s => s.workflow_id == wid) =
        (db.steps.filter (fun s => s.workflow_id == wid)).map g :=
      filter_map_comm g (fun s => s.workflow_id == wid)
        (fun r => by simp only [hgw r]) db.steps
    rw [hfm]
    exact sortByIndex_map_comm g hgi (db.steps.filter (fun s => s.workflow_id == wid))
  set rows := instanceStepRows wid db with hrowsdef
  -- the row backing position idx
  have hlenrows : rows.length = inst.steps.length := by
    rw [hstepsEq, List.length_map]
  have hidxrows : idx < rows.length := by rw [hlenrows]; exact hidx
  have hrowsidx : rows[idx]? = some rows[idx] := List.getElem?_eq_getElem hidxrows
  set r0 := rows[idx] with hr0def
  have hr0idx : r0.step_index = idx := by
    have h1 : (rows.map (fun r => r.step_index))[idx]? = some r0.step_index := by
      rw [List.getElem?_map, hrowsidx]
      rfl
    rw [hWF] at h1
    rw [List.getElem?_range hidxrows] at h1
    exact (Option.some.inj h1).symm
  have hr0mem : r0 ∈ rows := List.getElem_mem hidxrows
  have hr0wid : r0.workflow_id = wid := by
    have hperm : List.Perm rows (db.steps.filter (fun s => s.workflow_id == wid)) :=
      List.perm_insertionSort _ _
    have hmemf := hperm.mem_iff.mp hr0mem
    have := (List.mem_filter.mp hmemf).2
    simpa using this
  -- the updated row and its read-back
  have hcond : (r0.workflow_id == wid && r0.step_index == idx) = true := by
    rw [hr0wid, hr0idx]
    simp
  have hmergedOut : merged.output = some v := by
    rw [hmerged]
    unfold mergeStep
    rw [hout]
  refine ⟨{ id := w.id, status := w.status, startTime := w.start_time,
            endTime := w.end_time,
            steps := ((instanceStepRows wid db).map g).map toStepData },
          ?_, ?_⟩
  · rw [hupd]
    unfold getWorkflowInstance
    rw [show ({ db with steps := db.steps.map g } : DB).instances = db.instances
      from rfl, hfind, hrows']
  · rw [List.getElem?_map, List.getElem?_map, ← hrowsdef, hrowsidx]
    show some (toStepData (g r0)).output = some (some v)
    rw [hg]
    show some (toStepData (if (r0.workflow_id == wid && r0.step_index == idx) = true
      then writeStepRow merged r0 else r0)).output = some (some v)
    rw [if_pos hcond]
    show some (storedOutput merged.output) = some (some v)
    rw [hmergedOut]
    simp [storedOutput, htr]

/-- C1 counterexample input: a running instance with one step row. -/
def dbOneStep : DB :=
  { instances := [{ id := "w", status := InstStatus.running, start_time := 0,
                    end_time := none }],
    steps := [{ workflow_id := "w", step_index := 0, name := "Fetch Files",
                status := StepStatus.running, output := none, error := none,
                timestamp := 0, duration := none }] }

/-- C1 counterexample update: completing step 0 with the falsy output `0`. -/
def updZero : StepUpdates :=
  { status := some StepStatus.completed, output := some (Json.num 0),
    error := none, timestamp := none, duration := none }

/-- C1 counterexample: writing the JSON-representable falsy value `0` via
`updateStep` does not round-trip — the status merge is persisted
(`completed`), but the bind-site coercion `output ? JSON.stringify(...) :
null` stores NULL, so the State Reader returns `undefined` (`none`) instead
of a value deeply equal to `0`. -/
theorem updateStep_falsy_output_lost :
    (getWorkflowInstance "w" (updateStep "w" 0 updZero dbOneStep).1).map
        (fun i => i.steps.map (fun s => (s.status, s.output))) =
      some [(StepStatus.completed, none)] ∧
    (none : Option Json) ≠ some (Json.num 0) := by
  exact ⟨rfl, by simp⟩

/-- C1 witness update: completing step 0 with a truthy output. -/
def updHello : StepUpdates :=
  { status := some StepStatus.completed, output := some (Json.str "hello"),
    error := none, timestamp := none, duration := none }

/-- C1 witness input: the reader's view of `dbOneStep`. -/
def instOneStep : WorkflowInstance :=
  { id := "w", status := InstStatus.running, startTime := 0, endTime := none,
    steps := [{ name := "Fetch Files", status := StepStatus.running,
                output := none, error := none, timestamp := 0,
                duration := none }] }

/-- C1 witness: the truthy value `"hello"` written via `updateStep` reads
back deeply equal through `getWorkflowInstance`. -/
theorem updateStep_output_roundtrip_witness :
    ∃ inst', getWorkflowInstance "w" (updateStep "w" 0 updHello dbOneStep).1 =
      some inst' ∧
      (inst'.steps[0]?).map (fun sd => sd.output) =
        some (some (Json.str "hello")) :=
  updateStep_output_roundtrip dbOneStep "w" 0 updHello (Json.str "hello")
    rfl rfl rfl instOneStep rfl (by decide)
